import Mathlib

/-!
Shallow embedding of src/webserver/database/execute_queries.rs from SQLpage.

The engine executes a parsed statement plan against a database, lazily
acquiring one pooled connection, binding parameters from request data, and
producing an ordered sequence of output items. External collaborators
(parameter extraction, the sqlx backend, the pool, the CSV import routine)
are modelled as an oracle structure; the run state records the held
connection, the number of pool acquisitions, and the trace of queries sent
to the backend, so that resource and ordering claims are statable.
Errors of type anyhow.Error are modelled as their cause chains, listed
from outermost context to innermost root cause.
-/

/-- Cause chain of an anyhow error, outermost context first. -/
abbrev ErrChain := List String

/-- Mirrors SingleOrVec from webserver/http.rs: a request variable is a
single string or a list of strings. -/
inductive SingleOrVec where
  | Single (s : String)
  | Vec (v : List String)
deriving DecidableEq, Repr

/-- A request variable mapping, modelling a HashMap String SingleOrVec
extensionally through find, insert and remove. -/
abbrev VarMap := List (String × SingleOrVec)

/-- Lookup in a variable map, first matching key wins. -/
def VarMap.find : VarMap → String → Option SingleOrVec
  | [], _ => none
  | (k', v') :: rest, k => if k' = k then some v' else VarMap.find rest k

/-- Remove every entry under a key, modelling HashMap remove. -/
def VarMap.remove : VarMap → String → VarMap
  | [], _ => []
  | (k', v') :: rest, k =>
    if k' = k then VarMap.remove rest k else (k', v') :: VarMap.remove rest k

/-- Insert a value under a key, replacing any prior entry, modelling
HashMap insert. -/
def VarMap.insert (m : VarMap) (k : String) (v : SingleOrVec) : VarMap :=
  (k, v) :: m.remove k

/-- Mirrors RequestInfo as far as this module touches it: the GET and POST
variable maps. -/
structure RequestInfo where
  get_variables : VarMap
  post_variables : VarMap
deriving DecidableEq, Repr

/-- Mirrors StmtParam from sql_pseudofunctions.rs as far as vars_and_name
distinguishes it: Get, Post and GetOrPost are matched by name; every other
variant (cookie, header, literal, ...) is collapsed into Other carrying its
debug description. -/
inductive StmtParam where
  | Get (name : String)
  | Post (name : String)
  | GetOrPost (name : String)
  | Other (desc : String)
deriving DecidableEq, Repr

/-- Debug rendering of a StmtParam, standing in for the Rust derive of
Debug, used only inside the scope error message. -/
def StmtParam.debugStr : StmtParam → String
  | .Get n => "Get(" ++ n ++ ")"
  | .Post n => "Post(" ++ n ++ ")"
  | .GetOrPost n => "GetOrPost(" ++ n ++ ")"
  | .Other d => d

/-- A database row, modelled from the spec as the structured representation
of its columns: ordered pairs of column name and optional string value
(None models SQL NULL). sql_to_json.rs is outside this module. -/
abbrev RowData := List (String × Option String)

/-- Modelled from the spec: row_to_json from sql_to_json.rs turns a backend
row into a structured (JSON-like) representation of its columns; RowData
already is that representation, so the conversion is the identity. -/
def row_to_json (r : RowData) : RowData := r

/-- Modelled from the spec: row_to_string from sql_to_json.rs reads the
first column of a row as an optional string (absent when the row has no
column or the value is NULL). -/
def row_to_string (r : RowData) : Option String :=
  r.head?.bind (fun c => c.2)

/-- Mirrors StmtWithParams from sql.rs as used here: the SQL text and the
ordered parameter references. -/
structure StmtWithParams where
  query : String
  params : List StmtParam
deriving DecidableEq, Repr

/-- Mirrors the CsvImport description opaquely; its content is only handed
to the external import routine. -/
structure CsvImport where
  id : Nat
deriving DecidableEq, Repr

/-- Mirrors ParsedStatement from sql.rs. -/
inductive ParsedStatement where
  | CsvImport (ci : CsvImport)
  | StmtWithParams (stmt : StmtWithParams)
  | SetVariable (var : StmtParam) (value : StmtWithParams)
  | StaticSimpleSelect (value : RowData)
  | Error (e : ErrChain)
deriving DecidableEq, Repr

/-- True exactly on the CsvImport variant. -/
def ParsedStatement.isCsvImport : ParsedStatement → Bool
  | .CsvImport _ => true
  | _ => false

/-- Mirrors DbItem from webserver/database/mod.rs. -/
inductive DbItem where
  | Row (r : RowData)
  | FinishedQuery
  | Error (e : ErrChain)
deriving DecidableEq, Repr

/-- True exactly on the Error variant. -/
def DbItem.isError : DbItem → Bool
  | .Error _ => true
  | _ => false

/-- Mirrors the Database handle as far as this module touches it: the pool
size and kind used in the acquisition error message, and the outcome of a
pool acquisition (the native pool error as a string). -/
structure Database where
  pool_size : Nat
  pool_kind : String
  acquire : Except String Unit

/-- Oracle for the external collaborators: extract_req_param from
sql_pseudofunctions.rs, the sqlx backend fetch calls (a function of the SQL
text and the bound arguments; fetch_many yields a stream of native results,
each a completion with an affected-row count or a row), and run_csv_import
from csv_import.rs. -/
structure Env where
  extract_req_param : StmtParam → RequestInfo → Except ErrChain (Option String)
  fetch_many : String → List (Option String) → List (Except String (Sum Nat RowData))
  fetch_optional : String → List (Option String) → Except String (Option RowData)
  run_csv_import : CsvImport → RequestInfo → Except ErrChain Unit

/-- Mirrors StatementWithParams: the SQL text paired with the built
argument bundle (each argument a present string or NULL). -/
structure StatementWithParams where
  sql : String
  arguments : List (Option String)
deriving DecidableEq, Repr

/-- Modelled from the spec: highlight_sql_error from error_highlighting.rs
wraps a native backend error with a short headline and the offending SQL
text, producing an enriched cause chain. -/
def highlight_sql_error (headline : String) (query : String) (err : String) : ErrChain :=
  [headline ++ ": " ++ query, err]

/-- Mirrors parse_single_sql_result: a backend row becomes a Row item, a
completion signal becomes FinishedQuery, a backend error becomes an Error
item enriched with the offending SQL text. -/
def parse_single_sql_result (sql : String) (res : Except String (Sum Nat RowData)) : DbItem :=
  match res with
  | .ok (.inr r) => .Row (row_to_json r)
  | .ok (.inl _) => .FinishedQuery
  | .error err => .Error (highlight_sql_error "Failed to execute SQL statement" sql err)

/-- Mirrors clone_anyhow_err: start from a fresh headline error and re-add
every link of the original chain as context, innermost first. -/
def clone_anyhow_err (err : ErrChain) : ErrChain :=
  err.reverse.foldl (fun e c => c :: e)
    ["SQLPage could not parse and prepare this SQL statement"]

/-- Mirrors the loop body of bind_parameters: evaluate each parameter
reference in order through the external extractor, propagating the first
failure unchanged. -/
def bind_loop (env : Env) (request : RequestInfo) : List StmtParam → Except ErrChain (List (Option String))
  | [] => .ok []
  | p :: ps =>
    match env.extract_req_param p request with
    | .error e => .error e
    | .ok arg =>
      match bind_loop env request ps with
      | .error e => .error e
      | .ok rest => .ok (arg :: rest)

/-- Mirrors bind_parameters: pair the SQL text of the statement with the
argument bundle built from its parameter references. -/
def bind_parameters (env : Env) (stmt : StmtWithParams) (request : RequestInfo) :
    Except ErrChain StatementWithParams :=
  match bind_loop env request stmt.params with
  | .error e => .error e
  | .ok args => .ok ⟨stmt.query, args⟩

/-- Which variable map of the request a SetVariable statement targets. -/
inductive VarScope where
  | get
  | post
deriving DecidableEq, Repr

/-- Mirrors vars_and_name: Get and GetOrPost target the GET map, Post the
POST map, anything else is a scope error. -/
def vars_and_name (var : StmtParam) : Except ErrChain (VarScope × String)
  :=
  match var with
  | .Get name => .ok (.get, name)
  | .GetOrPost name => .ok (.get, name)
  | .Post name => .ok (.post, name)
  | other => .error ["Only GET and POST variables can be set, not " ++ other.debugStr]

/-- State threaded through one execution run: the mutable request, whether
the connection lease is held, how many pool acquisitions happened, and the
trace of queries sent to the backend. -/
structure RunState where
  request : RequestInfo
  conn : Bool
  acquisitions : Nat
  executed : List (String × List (Option String))
deriving DecidableEq, Repr

/-- Error message built by take_connection on acquisition failure. -/
def acquire_error_message (db : Database) : String :=
  "Unable to acquire a database connection to execute the SQL file. All of the "
    ++ toString db.pool_size ++ " " ++ db.pool_kind ++ " connections are busy."

/-- Mirrors take_connection: return the held lease if present, otherwise
acquire from the pool, counting the acquisition, or fail with the
descriptive pool exhaustion message wrapping the native error. -/
def take_connection (db : Database) (s : RunState) : Except ErrChain RunState :=
  if s.conn then .ok s
  else
    match db.acquire with
    | .ok _ => .ok { s with conn := true, acquisitions := s.acquisitions + 1 }
    | .error e => .error [acquire_error_message db, e]

/-- Outcome of executing one statement: the yielded items, the state after
the statement, and the fatal error if the statement aborted the run. -/
structure StepResult where
  items : List DbItem
  state : RunState
  fatal : Option ErrChain
deriving DecidableEq, Repr

/-- Mirrors the row-streaming loop of the StmtWithParams arm: map each
backend result to an item and yield it, stopping after the first error
result without consuming the rest of this statement's stream. -/
def drain_results (sql : String) : List (Except String (Sum Nat RowData)) → List DbItem
  | [] => []
  | r :: rs =>
    match r with
    | .error e => [parse_single_sql_result sql (.error e)]
    | .ok x => parse_single_sql_result sql (.ok x) :: drain_results sql rs

/-- Mirrors lines 68 to 74 of the SetVariable arm: a present value is
inserted as a single-valued entry in the targeted map, an absent value
removes the name from the targeted map. -/
def apply_var_update (req : RequestInfo) (scope : VarScope) (name : String)
    (v : Option String) : RequestInfo :=
  match scope, v with
  | .get, some value =>
    { req with get_variables := req.get_variables.insert name (.Single value) }
  | .get, none =>
    { req with get_variables := req.get_variables.remove name }
  | .post, some value =>
    { req with post_variables := req.post_variables.insert name (.Single value) }
  | .post, none =>
    { req with post_variables := req.post_variables.remove name }

/-- Mirrors one iteration of the statement loop of stream_query_results:
each ParsedStatement variant is handled as in the source, with a question
mark on a Result turning into a fatal outcome. -/
def exec_statement (env : Env) (db : Database) (stmt : ParsedStatement) (s : RunState) : StepResult :=
  match stmt with
  | .CsvImport ci =>
    match take_connection db s with
    | .error e => ⟨[], s, some e⟩
    | .ok s1 =>
      match env.run_csv_import ci s1.request with
      | .error e => ⟨[], s1, some e⟩
      | .ok _ => ⟨[], s1, none⟩
  | .StmtWithParams stmt =>
    match bind_parameters env stmt s.request with
    | .error e => ⟨[], s, some e⟩
    | .ok q =>
      match take_connection db s with
      | .error e => ⟨[], s, some e⟩
      | .ok s1 =>
        let s2 := { s1 with executed := s1.executed ++ [(q.sql, q.arguments)] }
        ⟨drain_results stmt.query (env.fetch_many q.sql q.arguments), s2, none⟩
  | .SetVariable var value =>
    match bind_parameters env value s.request with
    | .error e => ⟨[], s, some e⟩
    | .ok q =>
      match take_connection db s with
      | .error e => ⟨[], s, some e⟩
      | .ok s1 =>
        let s2 := { s1 with executed := s1.executed ++ [(q.sql, q.arguments)] }
        match env.fetch_optional q.sql q.arguments with
        | .error e => ⟨[], s2, some [e]⟩
        | .ok rowOpt =>
          let v : Option String := rowOpt.bind row_to_string
          match vars_and_name var with
          | .error e => ⟨[], s2, some e⟩
          | .ok (scope, name) =>
            ⟨[], { s2 with request := apply_var_update s2.request scope name v }, none⟩
  | .StaticSimpleSelect value => ⟨[DbItem.Row value], s, none⟩
  | .Error e => ⟨[DbItem.Error (clone_anyhow_err e)], s, none⟩

/-- Result of a whole run: the output item sequence, the final state, and
whether the run was aborted by a fatal error. -/
structure RunResult where
  items : List DbItem
  state : RunState
  aborted : Bool
deriving DecidableEq, Repr

/-- Mirrors the statement loop of stream_query_results together with the
try_stream semantics: a fatal error yields one final Error item and ends
the sequence; otherwise the next statement continues from the updated
state. -/
def run_statements (env : Env) (db : Database) : List ParsedStatement → RunState → RunResult
  | [], s => ⟨[], s, false⟩
  | stmt :: rest, s =>
    let step := exec_statement env db stmt s
    match step.fatal with
    | some e => ⟨step.items ++ [DbItem.Error e], step.state, true⟩
    | none =>
      let r := run_statements env db rest step.state
      ⟨step.items ++ r.items, r.state, r.aborted⟩

/-- Initial run state: no lease held, no acquisitions, empty trace. -/
def initState (request : RequestInfo) : RunState :=
  ⟨request, false, 0, []⟩

/-- Mirrors stream_query_results: run the statements of the parsed file
over a fresh state built from the incoming request. -/
def stream_query_results (env : Env) (db : Database) (sql_file : List ParsedStatement)
    (request : RequestInfo) : RunResult :=
  run_statements env db sql_file (initState request)

/-- Folding cons over a reversed list appends the list to the accumulator. -/
theorem foldl_cons_reverse (l acc : List String) :
    l.reverse.foldl (fun e c => c :: e) acc = l ++ acc := by
  induction l generalizing acc with
  | nil => rfl
  | cons x xs ih => simp [List.foldl_append, ih]

/-- The reconstituted parse error is the original chain with the standard
headline appended as the new root cause. -/
theorem clone_anyhow_err_eq (err : ErrChain) :
    clone_anyhow_err err = err ++ ["SQLPage could not parse and prepare this SQL statement"] :=
  foldl_cons_reverse err _

/-- Unfolding run_statements on a statement whose execution is fatal. -/
theorem run_statements_cons_fatal (env : Env) (db : Database) (stmt : ParsedStatement)
    (rest : List ParsedStatement) (s : RunState) (e : ErrChain)
    (h : (exec_statement env db stmt s).fatal = some e) :
    run_statements env db (stmt :: rest) s =
      ⟨(exec_statement env db stmt s).items ++ [DbItem.Error e],
       (exec_statement env db stmt s).state, true⟩ := by
  simp only [run_statements, h]

/-- Unfolding run_statements on a statement whose execution is not fatal. -/
theorem run_statements_cons_ok (env : Env) (db : Database) (stmt : ParsedStatement)
    (rest : List ParsedStatement) (s : RunState)
    (h : (exec_statement env db stmt s).fatal = none) :
    run_statements env db (stmt :: rest) s =
      ⟨(exec_statement env db stmt s).items
         ++ (run_statements env db rest (exec_statement env db stmt s).state).items,
       (run_statements env db rest (exec_statement env db stmt s).state).state,
       (run_statements env db rest (exec_statement env db stmt s).state).aborted⟩ := by
  simp only [run_statements, h]

/-- Running a concatenation of plans: when the first part does not abort,
the second part continues from its final state and the items concatenate. -/
theorem run_statements_append (env : Env) (db : Database) (l1 l2 : List ParsedStatement)
    (s : RunState) (h : (run_statements env db l1 s).aborted = false) :
    run_statements env db (l1 ++ l2) s =
      ⟨(run_statements env db l1 s).items
         ++ (run_statements env db l2 (run_statements env db l1 s).state).items,
       (run_statements env db l2 (run_statements env db l1 s).state).state,
       (run_statements env db l2 (run_statements env db l1 s).state).aborted⟩ := by
  induction l1 generalizing s with
  | nil => simp [run_statements]
  | cons stmt rest ih =>
    cases hf : (exec_statement env db stmt s).fatal with
    | some e =>
      rw [List.cons_append]
      rw [run_statements_cons_fatal env db stmt (rest ++ l2) s e hf]
      rw [run_statements_cons_fatal env db stmt rest s e hf] at h
      simp at h
    | none =>
      rw [List.cons_append]
      rw [run_statements_cons_ok env db stmt (rest ++ l2) s hf]
      rw [run_statements_cons_ok env db stmt rest s hf] at h ⊢
      simp only at h
      rw [ih _ h]
      simp [List.append_assoc]

/-- Every backend result that is not an error maps to a non-error item. -/
theorem parse_ok_not_error (sql : String) (x : Sum Nat RowData) :
    (parse_single_sql_result sql (.ok x)).isError = false := by
  cases x <;> rfl

/-- Draining a backend stream whose first error sits after a prefix of
successful results yields the mapped prefix followed by the one mapped
error, consuming nothing further. -/
theorem drain_results_first_error (sql : String) (pre post : List (Except String (Sum Nat RowData)))
    (e : String) (hpre : ∀ r ∈ pre, ∃ x, r = .ok x) :
    drain_results sql (pre ++ .error e :: post) =
      pre.map (parse_single_sql_result sql) ++ [parse_single_sql_result sql (.error e)] := by
  induction pre with
  | nil => rfl
  | cons r rs ih =>
    obtain ⟨x, rfl⟩ := hpre r (List.mem_cons_self r rs)
    rw [List.cons_append]
    show parse_single_sql_result sql (.ok x) :: drain_results sql (rs ++ .error e :: post) = _
    rw [ih (fun r hr => hpre r (List.mem_cons_of_mem _ hr))]
    rfl

/-- Upper bound on acquisitions reachable from a state: one more than the
current count if no lease is held, the current count otherwise. -/
def connCap (s : RunState) : Nat :=
  s.acquisitions + (if s.conn then 0 else 1)

/-- A successful take_connection never raises the acquisition bound. -/
theorem take_connection_cap (db : Database) (s s' : RunState)
    (h : take_connection db s = Except.ok s') : connCap s' ≤ connCap s := by
  unfold take_connection at h
  by_cases hc : s.conn = true
  · simp [hc] at h
    subst h
    exact le_refl _
  · simp [hc] at h
    cases ha : db.acquire with
    | ok u =>
      rw [ha] at h
      simp at h
      subst h
      simp [connCap, hc]
    | error e =>
      rw [ha] at h
      simp at h

/-- Equation for a CsvImport statement whose connection acquisition fails. -/
theorem exec_csv_conn_err (env : Env) (db : Database) (ci : CsvImport) (s : RunState)
    (e : ErrChain) (hc : take_connection db s = .error e) :
    exec_statement env db (.CsvImport ci) s = ⟨[], s, some e⟩ := by
  simp only [exec_statement, hc]

/-- Equation for a CsvImport statement whose import routine fails. -/
theorem exec_csv_run_err (env : Env) (db : Database) (ci : CsvImport) (s s1 : RunState)
    (e : ErrChain) (hc : take_connection db s = .ok s1)
    (hr : env.run_csv_import ci s1.request = .error e) :
    exec_statement env db (.CsvImport ci) s = ⟨[], s1, some e⟩ := by
  simp only [exec_statement, hc, hr]

/-- Equation for a CsvImport statement that succeeds. -/
theorem exec_csv_ok (env : Env) (db : Database) (ci : CsvImport) (s s1 : RunState)
    (hc : take_connection db s = .ok s1) (hr : env.run_csv_import ci s1.request = .ok ()) :
    exec_statement env db (.CsvImport ci) s = ⟨[], s1, none⟩ := by
  simp only [exec_statement, hc, hr]

/-- Equation for a query statement whose parameter binding fails. -/
theorem exec_stmt_bind_err (env : Env) (db : Database) (stmt : StmtWithParams) (s : RunState)
    (e : ErrChain) (hb : bind_parameters env stmt s.request = .error e) :
    exec_statement env db (.StmtWithParams stmt) s = ⟨[], s, some e⟩ := by
  simp only [exec_statement, hb]

/-- Equation for a query statement whose connection acquisition fails. -/
theorem exec_stmt_conn_err (env : Env) (db : Database) (stmt : StmtWithParams) (s : RunState)
    (q : StatementWithParams) (e : ErrChain) (hb : bind_parameters env stmt s.request = .ok q)
    (hc : take_connection db s = .error e) :
    exec_statement env db (.StmtWithParams stmt) s = ⟨[], s, some e⟩ := by
  simp only [exec_statement, hb, hc]

/-- Equation for a query statement that reaches the backend: the fetched
results are drained into items and the query is recorded in the trace. -/
theorem exec_stmt_ok (env : Env) (db : Database) (stmt : StmtWithParams) (s : RunState)
    (q : StatementWithParams) (s1 : RunState) (hb : bind_parameters env stmt s.request = .ok q)
    (hc : take_connection db s = .ok s1) :
    exec_statement env db (.StmtWithParams stmt) s =
      ⟨drain_results stmt.query (env.fetch_many q.sql q.arguments),
       { s1 with executed := s1.executed ++ [(q.sql, q.arguments)] }, none⟩ := by
  simp only [exec_statement, hb, hc]

/-- Equation for a SetVariable statement whose parameter binding fails. -/
theorem exec_set_bind_err (env : Env) (db : Database) (v : StmtParam) (value : StmtWithParams)
    (s : RunState) (e : ErrChain) (hb : bind_parameters env value s.request = .error e) :
    exec_statement env db (.SetVariable v value) s = ⟨[], s, some e⟩ := by
  simp only [exec_statement, hb]

/-- Equation for a SetVariable statement whose connection acquisition fails. -/
theorem exec_set_conn_err (env : Env) (db : Database) (v : StmtParam) (value : StmtWithParams)
    (s : RunState) (q : StatementWithParams) (e : ErrChain)
    (hb : bind_parameters env value s.request = .ok q)
    (hc : take_connection db s = .error e) :
    exec_statement env db (.SetVariable v value) s = ⟨[], s, some e⟩ := by
  simp only [exec_statement, hb, hc]

/-- Equation for a SetVariable statement whose inner query fails at the
backend: the query is already in the trace and the native error is fatal. -/
theorem exec_set_fetch_err (env : Env) (db : Database) (v : StmtParam) (value : StmtWithParams)
    (s : RunState) (q : StatementWithParams) (s1 : RunState) (e : String)
    (hb : bind_parameters env value s.request = .ok q)
    (hc : take_connection db s = .ok s1)
    (hf : env.fetch_optional q.sql q.arguments = .error e) :
    exec_statement env db (.SetVariable v value) s =
      ⟨[], { s1 with executed := s1.executed ++ [(q.sql, q.arguments)] }, some [e]⟩ := by
  simp only [exec_statement, hb, hc, hf]

/-- Equation for a SetVariable statement whose inner query succeeds but
whose target scope is invalid: the query is already in the trace and the
scope error is fatal. -/
theorem exec_set_scope_err (env : Env) (db : Database) (v : StmtParam) (value : StmtWithParams)
    (s : RunState) (q : StatementWithParams) (s1 : RunState) (rowOpt : Option RowData)
    (e : ErrChain) (hb : bind_parameters env value s.request = .ok q)
    (hc : take_connection db s = .ok s1)
    (hf : env.fetch_optional q.sql q.arguments = .ok rowOpt)
    (hv : vars_and_name v = .error e) :
    exec_statement env db (.SetVariable v value) s =
      ⟨[], { s1 with executed := s1.executed ++ [(q.sql, q.arguments)] }, some e⟩ := by
  simp only [exec_statement, hb, hc, hf, hv]

/-- Equation for a SetVariable statement that succeeds: no item is yielded
and the targeted variable map is updated from the optional first-row
first-column value. -/
theorem exec_set_ok (env : Env) (db : Database) (v : StmtParam) (value : StmtWithParams)
    (s : RunState) (q : StatementWithParams) (s1 : RunState) (rowOpt : Option RowData)
    (scope : VarScope) (name : String) (hb : bind_parameters env value s.request = .ok q)
    (hc : take_connection db s = .ok s1)
    (hf : env.fetch_optional q.sql q.arguments = .ok rowOpt)
    (hv : vars_and_name v = .ok (scope, name)) :
    exec_statement env db (.SetVariable v value) s =
      ⟨[], { s1 with
              executed := s1.executed ++ [(q.sql, q.arguments)],
              request := apply_var_update s1.request scope name (rowOpt.bind row_to_string) },
       none⟩ := by
  simp only [exec_statement, hb, hc, hf, hv]

/-- Equation for a StaticSimpleSelect statement: one Row item, no state
change. -/
theorem exec_static_eq (env : Env) (db : Database) (value : RowData) (s : RunState) :
    exec_statement env db (.StaticSimpleSelect value) s = ⟨[DbItem.Row value], s, none⟩ := rfl

/-- Equation for a stored parse failure: one reconstituted Error item, no
state change. -/
theorem exec_parse_failure_eq (env : Env) (db : Database) (e : ErrChain) (s : RunState) :
    exec_statement env db (.Error e) s = ⟨[DbItem.Error (clone_anyhow_err e)], s, none⟩ := rfl

/-- The acquisition bound is insensitive to the request and trace fields. -/
theorem connCap_update (s : RunState) (r : RequestInfo) (t : List (String × List (Option String))) :
    connCap { s with request := r, executed := t } = connCap s := rfl

/-- Executing any single statement never raises the acquisition bound. -/
theorem exec_statement_cap (env : Env) (db : Database) (stmt : ParsedStatement) (s : RunState) :
    connCap (exec_statement env db stmt s).state ≤ connCap s := by
  cases stmt with
  | CsvImport ci =>
    cases hc : take_connection db s with
    | error e => rw [exec_csv_conn_err env db ci s e hc]
    | ok s1 =>
      have hle := take_connection_cap db s s1 hc
      cases hr : env.run_csv_import ci s1.request with
      | error e => rw [exec_csv_run_err env db ci s s1 e hc hr]; exact hle
      | ok u => rw [exec_csv_ok env db ci s s1 hc hr]; exact hle
  | StmtWithParams stmt =>
    cases hb : bind_parameters env stmt s.request with
    | error e => rw [exec_stmt_bind_err env db stmt s e hb]
    | ok q =>
      cases hc : take_connection db s with
      | error e => rw [exec_stmt_conn_err env db stmt s q e hb hc]
      | ok s1 =>
        rw [exec_stmt_ok env db stmt s q s1 hb hc]
        exact take_connection_cap db s s1 hc
  | SetVariable v value =>
    cases hb : bind_parameters env value s.request with
    | error e => rw [exec_set_bind_err env db v value s e hb]
    | ok q =>
      cases hc : take_connection db s with
      | error e => rw [exec_set_conn_err env db v value s q e hb hc]
      | ok s1 =>
        have hle := take_connection_cap db s s1 hc
        cases hf : env.fetch_optional q.sql q.arguments with
        | error e => rw [exec_set_fetch_err env db v value s q s1 e hb hc hf]; exact hle
        | ok rowOpt =>
          cases hv : vars_and_name v with
          | error e => rw [exec_set_scope_err env db v value s q s1 rowOpt e hb hc hf hv]; exact hle
          | ok sn =>
            rw [exec_set_ok env db v value s q s1 rowOpt sn.1 sn.2 hb hc hf (by rw [hv])]
            exact hle
  | StaticSimpleSelect value => rw [exec_static_eq]
  | Error e => rw [exec_parse_failure_eq]

/-- A whole run never raises the acquisition bound of its initial state. -/
theorem run_statements_cap (env : Env) (db : Database) (plan : List ParsedStatement)
    (s : RunState) : connCap (run_statements env db plan s).state ≤ connCap s := by
  induction plan generalizing s with
  | nil => exact le_refl _
  | cons stmt rest ih =>
    cases hf : (exec_statement env db stmt s).fatal with
    | some e =>
      rw [run_statements_cons_fatal env db stmt rest s e hf]
      exact exec_statement_cap env db stmt s
    | none =>
      rw [run_statements_cons_ok env db stmt rest s hf]
      exact le_trans (ih _) (exec_statement_cap env db stmt s)

/-- C5: for every run over a plan with no Bulk Import statement, at most
one connection acquisition from the pool occurs: the first statement that
needs a connection acquires it and every later statement reuses the held
lease. -/
theorem at_most_one_connection_acquisition (env : Env) (db : Database)
    (plan : List ParsedStatement) (request : RequestInfo)
    (hnocsv : ∀ stmt ∈ plan, stmt.isCsvImport = false) :
    (stream_query_results env db plan request).state.acquisitions ≤ 1 := by
  have h1 := run_statements_cap env db plan (initState request)
  have h2 : (run_statements env db plan (initState request)).state.acquisitions
      ≤ connCap (run_statements env db plan (initState request)).state :=
    Nat.le_add_right _ _
  have h3 : connCap (initState request) = 1 := rfl
  unfold stream_query_results
  omega

/-- Request used by the connection-count witness. -/
def reqC5 : RequestInfo := ⟨[], []⟩

/-- Database used by the connection-count witness. -/
def dbC5 : Database := ⟨3, "Sqlite", .ok ()⟩

/-- Oracle used by the connection-count witness. -/
def envC5 : Env :=
  ⟨fun _ _ => .ok none, fun _ _ => [.ok (.inl 1)], fun _ _ => .ok none, fun _ _ => .ok ()⟩

/-- Plan used by the connection-count witness: two queries and one
variable assignment, no Bulk Import. -/
def planC5 : List ParsedStatement :=
  [.StmtWithParams ⟨"SELECT 1", []⟩,
   .SetVariable (.Get "x") ⟨"SELECT 2", []⟩,
   .StmtWithParams ⟨"SELECT 3", []⟩]

/-- Witness for the connection-count claim on a concrete three-statement
plan. -/
theorem at_most_one_connection_acquisition_witness :
    (∀ stmt ∈ planC5, stmt.isCsvImport = false)
    ∧ (stream_query_results envC5 dbC5 planC5 reqC5).state.acquisitions ≤ 1 :=
  ⟨by decide, at_most_one_connection_acquisition envC5 dbC5 planC5 reqC5 (by decide)⟩

/-- C9: a plan made only of Static Constant statements yields one Row item
per statement, built directly from the parse-time constants, and leaves the
run state untouched: the connection lease is never taken and zero pool
acquisitions happen over the whole run. -/
theorem static_constant_no_acquisition (env : Env) (db : Database) (vs : List RowData)
    (request : RequestInfo) :
    stream_query_results env db (vs.map ParsedStatement.StaticSimpleSelect) request
      = ⟨vs.map DbItem.Row, initState request, false⟩ := by
  unfold stream_query_results
  generalize initState request = s
  induction vs generalizing s with
  | nil => rfl
  | cons v rest ih =>
    rw [List.map_cons,
      run_statements_cons_ok env db _ _ s (by rw [exec_static_eq]),
      exec_static_eq, ih]
    rfl

/-- C7: a Parse Failure statement yields exactly one Error item with no
state change (hence no database interaction), and the reconstituted error
is a fresh chain listing the full original cause chain outermost first,
followed by the standard headline. -/
theorem parse_failure_reconstituted (env : Env) (db : Database) (e : ErrChain) (s : RunState) :
    exec_statement env db (ParsedStatement.Error e) s
        = ⟨[DbItem.Error (clone_anyhow_err e)], s, none⟩
    ∧ clone_anyhow_err e = e ++ ["SQLPage could not parse and prepare this SQL statement"] :=
  ⟨rfl, clone_anyhow_err_eq e⟩

/-- Spec-side decomposition of a run: the block of items contributed by
each statement, in plan order, the block of an aborting statement carrying
its final Error item. -/
def spec_per_statement_items (env : Env) (db : Database) :
    List ParsedStatement → RunState → List (List DbItem)
  | [], _ => []
  | stmt :: rest, s =>
    let step := exec_statement env db stmt s
    match step.fatal with
    | some e => [step.items ++ [DbItem.Error e]]
    | none => step.items :: spec_per_statement_items env db rest step.state

/-- The output of a run is the concatenation of its per-statement blocks. -/
theorem run_statements_items_eq_join (env : Env) (db : Database) (plan : List ParsedStatement)
    (s : RunState) :
    (run_statements env db plan s).items = (spec_per_statement_items env db plan s).join := by
  induction plan generalizing s with
  | nil => rfl
  | cons stmt rest ih =>
    cases hf : (exec_statement env db stmt s).fatal with
    | some e =>
      rw [run_statements_cons_fatal env db stmt rest s e hf]
      simp only [spec_per_statement_items, hf]
      simp
    | none =>
      rw [run_statements_cons_ok env db stmt rest s hf]
      simp only [spec_per_statement_items, hf]
      simp [ih]

/-- A run that does not abort has exactly one block per statement. -/
theorem run_no_abort_blocks_length (env : Env) (db : Database) (plan : List ParsedStatement)
    (s : RunState) (h : (run_statements env db plan s).aborted = false) :
    (spec_per_statement_items env db plan s).length = plan.length := by
  induction plan generalizing s with
  | nil => rfl
  | cons stmt rest ih =>
    cases hf : (exec_statement env db stmt s).fatal with
    | some e =>
      rw [run_statements_cons_fatal env db stmt rest s e hf] at h
      simp at h
    | none =>
      rw [run_statements_cons_ok env db stmt rest s hf] at h
      simp only [spec_per_statement_items, hf, List.length_cons]
      simp only at h
      rw [ih _ h]

/-- C3: when the run is not aborted by a setup failure, the output sequence
is the ordered concatenation of one block of items per statement, one block
for each of the N statements of the plan in order; so all items of
statement i precede all items of statement i+1 and no statement is
skipped. -/
theorem output_preserves_statement_order (env : Env) (db : Database)
    (plan : List ParsedStatement) (request : RequestInfo)
    (h : (stream_query_results env db plan request).aborted = false) :
    (stream_query_results env db plan request).items
        = (spec_per_statement_items env db plan (initState request)).join
    ∧ (spec_per_statement_items env db plan (initState request)).length = plan.length :=
  ⟨run_statements_items_eq_join env db plan (initState request),
   run_no_abort_blocks_length env db plan (initState request) h⟩

/-- Request used by the statement-order witness. -/
def reqC3 : RequestInfo := ⟨[], []⟩

/-- Database used by the statement-order witness. -/
def dbC3 : Database := ⟨2, "Postgres", .ok ()⟩

/-- Oracle used by the statement-order witness. -/
def envC3 : Env :=
  ⟨fun _ _ => .ok none,
   fun _ _ => [.ok (.inr [("a", some "1")]), .ok (.inl 1)],
   fun _ _ => .ok none,
   fun _ _ => .ok ()⟩

/-- Plan used by the statement-order witness. -/
def planC3 : List ParsedStatement :=
  [.StaticSimpleSelect [("c", some "ok")], .StmtWithParams ⟨"SELECT 1", []⟩]

/-- Witness for the statement-order claim on a concrete two-statement
plan. -/
theorem output_preserves_statement_order_witness :
    (stream_query_results envC3 dbC3 planC3 reqC3).aborted = false
    ∧ ((stream_query_results envC3 dbC3 planC3 reqC3).items
          = (spec_per_statement_items envC3 dbC3 planC3 (initState reqC3)).join
        ∧ (spec_per_statement_items envC3 dbC3 planC3 (initState reqC3)).length = planC3.length) :=
  ⟨rfl, output_preserves_statement_order envC3 dbC3 planC3 reqC3 rfl⟩

/-- C1: when the backend result stream of a Parameterized Query yields an
error after a prefix of successful results, the statement contributes the
mapped prefix followed by exactly one Error item, consumes nothing further
from its stream, and the run continues with the next statements from the
post-statement state, whose items follow in the output. -/
theorem stmt_exec_error_recoverable (env : Env) (db : Database) (stmt : StmtWithParams)
    (rest : List ParsedStatement) (s : RunState) (q : StatementWithParams) (s1 : RunState)
    (pre post : List (Except String (Sum Nat RowData))) (e : String)
    (hb : bind_parameters env stmt s.request = .ok q)
    (hc : take_connection db s = .ok s1)
    (hf : env.fetch_many q.sql q.arguments = pre ++ .error e :: post)
    (hpre : ∀ r ∈ pre, ∃ x, r = .ok x) :
    (run_statements env db (ParsedStatement.StmtWithParams stmt :: rest) s).items
        = (pre.map (parse_single_sql_result stmt.query)
            ++ [DbItem.Error (highlight_sql_error "Failed to execute SQL statement" stmt.query e)])
          ++ (run_statements env db rest
                { s1 with executed := s1.executed ++ [(q.sql, q.arguments)] }).items
    ∧ (pre.map (parse_single_sql_result stmt.query)
        ++ [DbItem.Error (highlight_sql_error "Failed to execute SQL statement" stmt.query e)]).countP
          (fun it => it.isError) = 1 := by
  have hexec := exec_stmt_ok env db stmt s q s1 hb hc
  constructor
  · rw [run_statements_cons_ok env db _ rest s (by rw [hexec]), hexec]
    simp only []
    rw [hf, drain_results_first_error stmt.query pre post e hpre]
    rfl
  · rw [List.countP_append, List.countP_map]
    have h0 : pre.countP ((fun it => it.isError) ∘ parse_single_sql_result stmt.query) = 0 := by
      rw [List.countP_eq_zero]
      intro r hr
      obtain ⟨x, rfl⟩ := hpre r hr
      simp [Function.comp, parse_ok_not_error]
    rw [h0]
    rfl

/-- Request used by the recoverable-execution-error witness. -/
def reqC1 : RequestInfo := ⟨[], []⟩

/-- Database used by the recoverable-execution-error witness. -/
def dbC1 : Database := ⟨2, "Postgres", .ok ()⟩

/-- Oracle used by the recoverable-execution-error witness: the backend
yields one row, then an error, then a further result that must not be
consumed. -/
def envC1 : Env :=
  ⟨fun _ _ => .ok none,
   fun _ _ => [.ok (.inr [("a", some "1")]), .error "division by zero", .ok (.inl 0)],
   fun _ _ => .ok none,
   fun _ _ => .ok ()⟩

/-- Query statement used by the recoverable-execution-error witness. -/
def stmtC1 : StmtWithParams := ⟨"SELECT 1/0", []⟩

/-- Trailing plan used by the recoverable-execution-error witness. -/
def restC1 : List ParsedStatement := [.StaticSimpleSelect [("ok", some "yes")]]

/-- Witness for the recoverable-execution-error claim on a concrete
backend stream erroring after one row. -/
theorem stmt_exec_error_recoverable_witness :
    (bind_parameters envC1 stmtC1 (initState reqC1).request = .ok ⟨"SELECT 1/0", []⟩)
    ∧ (take_connection dbC1 (initState reqC1) = .ok ⟨reqC1, true, 1, []⟩)
    ∧ (envC1.fetch_many "SELECT 1/0" []
        = [.ok (.inr [("a", some "1")])] ++ .error "division by zero" :: [.ok (.inl 0)])
    ∧ ((run_statements envC1 dbC1 (ParsedStatement.StmtWithParams stmtC1 :: restC1)
          (initState reqC1)).items
          = ([.ok (.inr [("a", some "1")])].map (parse_single_sql_result stmtC1.query)
              ++ [DbItem.Error
                    (highlight_sql_error "Failed to execute SQL statement" stmtC1.query
                      "division by zero")])
            ++ (run_statements envC1 dbC1 restC1
                  ⟨reqC1, true, 1, [("SELECT 1/0", [])]⟩).items
        ∧ ([.ok (.inr [("a", some "1")])].map (parse_single_sql_result stmtC1.query)
            ++ [DbItem.Error
                  (highlight_sql_error "Failed to execute SQL statement" stmtC1.query
                    "division by zero")]).countP (fun it => it.isError) = 1) :=
  ⟨rfl, rfl, rfl,
   stmt_exec_error_recoverable envC1 dbC1 stmtC1 restC1 (initState reqC1)
     ⟨"SELECT 1/0", []⟩ ⟨reqC1, true, 1, []⟩
     [.ok (.inr [("a", some "1")])] [.ok (.inl 0)] "division by zero"
     rfl rfl rfl
     (fun r hr => by rw [List.mem_singleton] at hr; exact ⟨_, hr⟩)⟩

/-- C2: when parameter binding of a Parameterized Query fails, the run
terminates there: the output is the items of the preceding statements
followed by exactly one final Error item, with no item from any later
statement, and the sequence ends normally with the aborted flag set. -/
theorem binding_failure_aborts_run (env : Env) (db : Database)
    (plan1 plan2 : List ParsedStatement) (stmt : StmtWithParams) (request : RequestInfo)
    (e : ErrChain)
    (h1 : (run_statements env db plan1 (initState request)).aborted = false)
    (hb : bind_parameters env stmt
            (run_statements env db plan1 (initState request)).state.request = .error e) :
    (stream_query_results env db
        (plan1 ++ ParsedStatement.StmtWithParams stmt :: plan2) request).items
      = (run_statements env db plan1 (initState request)).items ++ [DbItem.Error e]
    ∧ (stream_query_results env db
        (plan1 ++ ParsedStatement.StmtWithParams stmt :: plan2) request).aborted = true := by
  unfold stream_query_results
  rw [run_statements_append env db plan1 _ _ h1]
  have hx := exec_stmt_bind_err env db stmt
    (run_statements env db plan1 (initState request)).state e hb
  rw [run_statements_cons_fatal env db _ plan2 _ e (by rw [hx]), hx]
  simp

/-- Request used by the binding-failure witness. -/
def reqC2 : RequestInfo := ⟨[], []⟩

/-- Database used by the binding-failure witness. -/
def dbC2 : Database := ⟨2, "Mysql", .ok ()⟩

/-- Oracle used by the binding-failure witness: extracting any parameter
value fails. -/
def envC2 : Env :=
  ⟨fun _ _ => .error ["required parameter is missing"],
   fun _ _ => [.ok (.inl 1)],
   fun _ _ => .ok none,
   fun _ _ => .ok ()⟩

/-- Failing statement used by the binding-failure witness. -/
def stmtC2 : StmtWithParams := ⟨"SELECT $1", [.Get "x"]⟩

/-- Witness for the binding-failure claim: a static statement first, then
the failing query, then a statement that must contribute nothing. -/
theorem binding_failure_aborts_run_witness :
    ((run_statements envC2 dbC2 [ParsedStatement.StaticSimpleSelect [("a", some "1")]]
        (initState reqC2)).aborted = false)
    ∧ (bind_parameters envC2 stmtC2
        (run_statements envC2 dbC2 [ParsedStatement.StaticSimpleSelect [("a", some "1")]]
          (initState reqC2)).state.request = .error ["required parameter is missing"])
    ∧ ((stream_query_results envC2 dbC2
          ([ParsedStatement.StaticSimpleSelect [("a", some "1")]]
            ++ ParsedStatement.StmtWithParams stmtC2
              :: [ParsedStatement.StaticSimpleSelect [("b", some "2")]]) reqC2).items
        = (run_statements envC2 dbC2 [ParsedStatement.StaticSimpleSelect [("a", some "1")]]
            (initState reqC2)).items ++ [DbItem.Error ["required parameter is missing"]]
      ∧ (stream_query_results envC2 dbC2
          ([ParsedStatement.StaticSimpleSelect [("a", some "1")]]
            ++ ParsedStatement.StmtWithParams stmtC2
              :: [ParsedStatement.StaticSimpleSelect [("b", some "2")]]) reqC2).aborted = true) :=
  ⟨rfl, rfl,
   binding_failure_aborts_run envC2 dbC2
     [ParsedStatement.StaticSimpleSelect [("a", some "1")]]
     [ParsedStatement.StaticSimpleSelect [("b", some "2")]]
     stmtC2 reqC2 ["required parameter is missing"] rfl rfl⟩

/-- C8: a Variable Assignment whose target is neither a GET nor a POST
scope is fatal once its inner query has run: the output is the items of
the preceding statements followed by exactly one final Error item carrying
the scope error, no later statement contributes items, and the aborted
flag is set. -/
theorem invalid_scope_aborts_run (env : Env) (db : Database)
    (plan1 plan2 : List ParsedStatement) (desc : String) (value : StmtWithParams)
    (request : RequestInfo) (q : StatementWithParams) (s1 : RunState) (rowOpt : Option RowData)
    (h1 : (run_statements env db plan1 (initState request)).aborted = false)
    (hb : bind_parameters env value
            (run_statements env db plan1 (initState request)).state.request = .ok q)
    (hc : take_connection db (run_statements env db plan1 (initState request)).state = .ok s1)
    (hf : env.fetch_optional q.sql q.arguments = .ok rowOpt) :
    (stream_query_results env db
        (plan1 ++ ParsedStatement.SetVariable (StmtParam.Other desc) value :: plan2)
        request).items
      = (run_statements env db plan1 (initState request)).items
        ++ [DbItem.Error ["Only GET and POST variables can be set, not " ++ desc]]
    ∧ (stream_query_results env db
        (plan1 ++ ParsedStatement.SetVariable (StmtParam.Other desc) value :: plan2)
        request).aborted = true := by
  unfold stream_query_results
  rw [run_statements_append env db plan1 _ _ h1]
  have hx := exec_set_scope_err env db (StmtParam.Other desc) value
    (run_statements env db plan1 (initState request)).state q s1 rowOpt
    ["Only GET and POST variables can be set, not " ++ desc] hb hc hf rfl
  rw [run_statements_cons_fatal env db _ plan2 _ _ (by rw [hx]), hx]
  simp

/-- Request used by the invalid-scope witness. -/
def reqC8 : RequestInfo := ⟨[], []⟩

/-- Database used by the invalid-scope witness. -/
def dbC8 : Database := ⟨4, "Postgres", .ok ()⟩

/-- Oracle used by the invalid-scope witness: the inner query succeeds and
returns one row. -/
def envC8 : Env :=
  ⟨fun _ _ => .ok none,
   fun _ _ => [.ok (.inl 1)],
   fun _ _ => .ok (some [("v", some "42")]),
   fun _ _ => .ok ()⟩

/-- Inner query used by the invalid-scope witness. -/
def valueC8 : StmtWithParams := ⟨"SELECT 42", []⟩

/-- Witness for the invalid-scope claim: an assignment to a cookie-like
target aborts the run after a successful inner query. -/
theorem invalid_scope_aborts_run_witness :
    ((run_statements envC8 dbC8 [] (initState reqC8)).aborted = false)
    ∧ (bind_parameters envC8 valueC8
        (run_statements envC8 dbC8 [] (initState reqC8)).state.request = .ok ⟨"SELECT 42", []⟩)
    ∧ (take_connection dbC8 (run_statements envC8 dbC8 [] (initState reqC8)).state
        = .ok ⟨reqC8, true, 1, []⟩)
    ∧ (envC8.fetch_optional "SELECT 42" [] = .ok (some [("v", some "42")]))
    ∧ ((stream_query_results envC8 dbC8
          ([] ++ ParsedStatement.SetVariable (StmtParam.Other "Cookie(theme)") valueC8
            :: [ParsedStatement.StaticSimpleSelect [("a", some "1")]]) reqC8).items
        = (run_statements envC8 dbC8 [] (initState reqC8)).items
          ++ [DbItem.Error ["Only GET and POST variables can be set, not Cookie(theme)"]]
      ∧ (stream_query_results envC8 dbC8
          ([] ++ ParsedStatement.SetVariable (StmtParam.Other "Cookie(theme)") valueC8
            :: [ParsedStatement.StaticSimpleSelect [("a", some "1")]]) reqC8).aborted = true) :=
  ⟨rfl, rfl, rfl, rfl,
   invalid_scope_aborts_run envC8 dbC8 []
     [ParsedStatement.StaticSimpleSelect [("a", some "1")]]
     "Cookie(theme)" valueC8 reqC8 ⟨"SELECT 42", []⟩ ⟨reqC8, true, 1, []⟩
     (some [("v", some "42")]) rfl rfl rfl rfl⟩

/-- take_connection changes neither the request nor the executed trace. -/
theorem take_connection_fields (db : Database) (s s' : RunState)
    (h : take_connection db s = Except.ok s') :
    s'.request = s.request ∧ s'.executed = s.executed := by
  unfold take_connection at h
  by_cases hc : s.conn = true
  · simp [hc] at h
    subst h
    exact ⟨rfl, rfl⟩
  · simp [hc] at h
    cases ha : db.acquire with
    | ok u =>
      rw [ha] at h
      simp at h
      subst h
      exact ⟨rfl, rfl⟩
    | error e =>
      rw [ha] at h
      simp at h

/-- C10: for an assignment whose target scope is invalid, the scope check
only happens after binding, connection acquisition and backend execution:
the inner query is recorded in the executed trace (so its side effects have
happened) and only then does the statement abort with the scope error. -/
theorem scope_check_after_execution (env : Env) (db : Database) (desc : String)
    (value : StmtWithParams) (s : RunState) (q : StatementWithParams) (s1 : RunState)
    (rowOpt : Option RowData)
    (hb : bind_parameters env value s.request = .ok q)
    (hc : take_connection db s = .ok s1)
    (hf : env.fetch_optional q.sql q.arguments = .ok rowOpt) :
    exec_statement env db (ParsedStatement.SetVariable (StmtParam.Other desc) value) s
        = ⟨[], { s1 with executed := s1.executed ++ [(q.sql, q.arguments)] },
           some ["Only GET and POST variables can be set, not " ++ desc]⟩
    ∧ (exec_statement env db (ParsedStatement.SetVariable (StmtParam.Other desc) value)
          s).state.executed = s.executed ++ [(q.sql, q.arguments)] := by
  have hx := exec_set_scope_err env db (StmtParam.Other desc) value s q s1 rowOpt
    ["Only GET and POST variables can be set, not " ++ desc] hb hc hf rfl
  refine ⟨hx, ?_⟩
  rw [hx]
  simp only []
  rw [(take_connection_fields db s s1 hc).2]

/-- Request used by the late-scope-check witness; note the GET variables
it starts with are irrelevant to the outcome. -/
def reqC10 : RequestInfo := ⟨[("y", .Single "0")], []⟩

/-- Database used by the late-scope-check witness. -/
def dbC10 : Database := ⟨2, "Sqlite", .ok ()⟩

/-- Oracle used by the late-scope-check witness: the inner query is an
UPDATE-like statement whose execution succeeds returning no row. -/
def envC10 : Env :=
  ⟨fun _ _ => .ok none,
   fun _ _ => [.ok (.inl 1)],
   fun _ _ => .ok none,
   fun _ _ => .ok ()⟩

/-- Inner query used by the late-scope-check witness. -/
def valueC10 : StmtWithParams := ⟨"UPDATE t SET c = 1", []⟩

/-- Witness for the late-scope-check claim: the inner query lands in the
executed trace even though the statement aborts with the scope error. -/
theorem scope_check_after_execution_witness :
    (bind_parameters envC10 valueC10 (initState reqC10).request
        = .ok ⟨"UPDATE t SET c = 1", []⟩)
    ∧ (take_connection dbC10 (initState reqC10) = .ok ⟨reqC10, true, 1, []⟩)
    ∧ (envC10.fetch_optional "UPDATE t SET c = 1" [] = .ok none)
    ∧ (exec_statement envC10 dbC10
          (ParsedStatement.SetVariable (StmtParam.Other "Header(x)") valueC10)
          (initState reqC10)
        = ⟨[], ⟨reqC10, true, 1, [("UPDATE t SET c = 1", [])]⟩,
           some ["Only GET and POST variables can be set, not Header(x)"]⟩
      ∧ (exec_statement envC10 dbC10
            (ParsedStatement.SetVariable (StmtParam.Other "Header(x)") valueC10)
            (initState reqC10)).state.executed
          = (initState reqC10).executed ++ [("UPDATE t SET c = 1", [])]) :=
  ⟨rfl, rfl, rfl,
   scope_check_after_execution envC10 dbC10 "Header(x)" valueC10 (initState reqC10)
     ⟨"UPDATE t SET c = 1", []⟩ ⟨reqC10, true, 1, []⟩ none rfl rfl rfl⟩

/-- Lookup after insert finds the inserted single value. -/
theorem VarMap.find_insert (m : VarMap) (k : String) (v : SingleOrVec) :
    (m.insert k v).find k = some v := by
  simp [VarMap.insert, VarMap.find]

/-- Lookup after remove finds nothing under the removed key. -/
theorem VarMap.find_remove (m : VarMap) (k : String) : (m.remove k).find k = none := by
  induction m with
  | nil => rfl
  | cons p rest ih =>
    by_cases h : p.1 = k
    · simp [VarMap.remove, h, ih]
    · simp [VarMap.remove, VarMap.find, h, ih]

/-- The variable map a scope designates inside a request. -/
def RequestInfo.scopeVars (req : RequestInfo) : VarScope → VarMap
  | .get => req.get_variables
  | .post => req.post_variables

/-- Request used by the variable-assignment counterexample: the target
variable initially holds a value. -/
def reqC4 : RequestInfo := ⟨[("x", .Single "old")], []⟩

/-- Database used by the variable-assignment counterexample. -/
def dbC4 : Database := ⟨1, "Sqlite", .ok ()⟩

/-- Oracle used by the variable-assignment counterexample: the inner query
returns one row whose first column is NULL. -/
def envC4 : Env :=
  ⟨fun _ _ => .ok none,
   fun _ _ => [],
   fun _ _ => .ok (some [("name", none)]),
   fun _ _ => .ok ()⟩

/-- Plan used by the variable-assignment counterexample. -/
def planC4 : List ParsedStatement :=
  [.SetVariable (.Get "x") ⟨"SELECT name FROM t", []⟩]

/-- Counterexample to the claim that a returned row always leads to an
insertion: here the inner query returns one row, the run does not abort,
and yet the target name ends up removed from the GET map rather than
inserted, because the first column of the row is NULL. -/
theorem set_variable_null_row_counterexample :
    envC4.fetch_optional "SELECT name FROM t" [] = .ok (some [("name", none)])
    ∧ (stream_query_results envC4 dbC4 planC4 reqC4).aborted = false
    ∧ (stream_query_results envC4 dbC4 planC4 reqC4).state.request.get_variables.find "x"
        = none
    ∧ reqC4.get_variables.find "x" = some (.Single "old") :=
  ⟨rfl, rfl, rfl, rfl⟩

/-- C4 as amended: for an assignment whose target resolves to a GET or
POST scope, when the optional first-row first-column value is a present
string it is inserted into the targeted map as a single-valued entry
overwriting any prior entry, and when it is absent (no row, or NULL first
column) the name is removed from the targeted map; the statement yields no
output item and later statements run from the updated request. -/
theorem set_variable_updates_scope (env : Env) (db : Database) (tgt : StmtParam)
    (value : StmtWithParams) (s : RunState) (q : StatementWithParams) (s1 : RunState)
    (rowOpt : Option RowData) (scope : VarScope) (name : String)
    (hb : bind_parameters env value s.request = .ok q)
    (hc : take_connection db s = .ok s1)
    (hf : env.fetch_optional q.sql q.arguments = .ok rowOpt)
    (hv : vars_and_name tgt = .ok (scope, name)) :
    exec_statement env db (ParsedStatement.SetVariable tgt value) s
        = ⟨[], { s1 with
                  executed := s1.executed ++ [(q.sql, q.arguments)],
                  request := apply_var_update s1.request scope name
                    (rowOpt.bind row_to_string) }, none⟩
    ∧ (∀ v, rowOpt.bind row_to_string = some v →
        ((apply_var_update s1.request scope name (rowOpt.bind row_to_string)).scopeVars
            scope).find name = some (.Single v))
    ∧ (rowOpt.bind row_to_string = none →
        ((apply_var_update s1.request scope name (rowOpt.bind row_to_string)).scopeVars
            scope).find name = none)
    ∧ (∀ rest, (run_statements env db (ParsedStatement.SetVariable tgt value :: rest) s).items
        = (run_statements env db rest
            (exec_statement env db (ParsedStatement.SetVariable tgt value) s).state).items) := by
  have hx := exec_set_ok env db tgt value s q s1 rowOpt scope name hb hc hf hv
  refine ⟨hx, ?_, ?_, ?_⟩
  · intro v hsome
    rw [hsome]
    cases scope with
    | get => simpa [apply_var_update, RequestInfo.scopeVars] using
        VarMap.find_insert s1.request.get_variables name (.Single v)
    | post => simpa [apply_var_update, RequestInfo.scopeVars] using
        VarMap.find_insert s1.request.post_variables name (.Single v)
  · intro hnone
    rw [hnone]
    cases scope with
    | get => simpa [apply_var_update, RequestInfo.scopeVars] using
        VarMap.find_remove s1.request.get_variables name
    | post => simpa [apply_var_update, RequestInfo.scopeVars] using
        VarMap.find_remove s1.request.post_variables name
  · intro rest
    rw [run_statements_cons_ok env db _ rest s (by rw [hx]), hx]
    simp

/-- Request used by the amended variable-assignment witness: the target
variable initially holds a multi-valued entry that must be overwritten. -/
def reqC4w : RequestInfo := ⟨[("x", .Vec ["a", "b"])], []⟩

/-- Database used by the amended variable-assignment witness. -/
def dbC4w : Database := ⟨1, "Sqlite", .ok ()⟩

/-- Oracle used by the amended variable-assignment witness: the inner
query returns one row with a present first column. -/
def envC4w : Env :=
  ⟨fun _ _ => .ok none,
   fun _ _ => [],
   fun _ _ => .ok (some [("name", some "fresh")]),
   fun _ _ => .ok ()⟩

/-- Inner query used by the amended variable-assignment witness. -/
def valueC4w : StmtWithParams := ⟨"SELECT name FROM t", []⟩

/-- Witness for the amended variable-assignment claim on a concrete GET
target with a present value overwriting a multi-valued entry. -/
theorem set_variable_updates_scope_witness :
    (bind_parameters envC4w valueC4w (initState reqC4w).request
        = .ok ⟨"SELECT name FROM t", []⟩)
    ∧ (take_connection dbC4w (initState reqC4w) = .ok ⟨reqC4w, true, 1, []⟩)
    ∧ (envC4w.fetch_optional "SELECT name FROM t" [] = .ok (some [("name", some "fresh")]))
    ∧ (vars_and_name (StmtParam.Get "x") = .ok (VarScope.get, "x"))
    ∧ (((apply_var_update (⟨reqC4w, true, 1, []⟩ : RunState).request VarScope.get "x"
            ((some [("name", some "fresh")] : Option RowData).bind row_to_string)).scopeVars
          VarScope.get).find "x" = some (.Single "fresh")) :=
  ⟨rfl, rfl, rfl, rfl,
   (set_variable_updates_scope envC4w dbC4w (StmtParam.Get "x") valueC4w (initState reqC4w)
      ⟨"SELECT name FROM t", []⟩ ⟨reqC4w, true, 1, []⟩ (some [("name", some "fresh")])
      VarScope.get "x" rfl rfl rfl rfl).2.1 "fresh" rfl⟩

/-- Request used by the binding-error-content counterexample. -/
def reqC6 : RequestInfo := ⟨[], []⟩

/-- Oracle used by the binding-error-content counterexample: extraction
succeeds on GET references and fails on everything else with a fixed
cause. -/
def envC6 : Env :=
  ⟨fun p _ =>
      match p with
      | .Get _ => .ok (some "v")
      | _ => .error ["boom"],
   fun _ _ => [],
   fun _ _ => .ok none,
   fun _ _ => .ok ()⟩

/-- Counterexample to the claim that a binding error cites the 1-based
parameter index: a failure at parameter index 1 and a failure at parameter
index 2 produce the very same error, which is exactly the underlying cause
and no character of it is the digit of either candidate index, so no
index is cited. -/
theorem binding_error_lacks_param_index :
    bind_parameters envC6 ⟨"SELECT $1", [StmtParam.Other "bad"]⟩ reqC6 = .error ["boom"]
    ∧ bind_parameters envC6 ⟨"SELECT $1", [StmtParam.Get "ok", StmtParam.Other "bad"]⟩ reqC6
        = bind_parameters envC6 ⟨"SELECT $1", [StmtParam.Other "bad"]⟩ reqC6
    ∧ (["boom"].all fun m => m.data.all fun c => !(c == '1') && !(c == '2')) = true :=
  ⟨rfl, rfl, by decide⟩

/-- C6 as amended: when extraction fails for a parameter, the binding error
is exactly the underlying cause returned by the value-extraction
collaborator for the first failing parameter in order; no parameter index
is attached to the error (the 1-based index appears only in the logs). -/
theorem binding_error_is_first_failing_cause (env : Env) (request : RequestInfo)
    (stmt : StmtWithParams) (ps1 ps2 : List StmtParam) (p : StmtParam) (e : ErrChain)
    (hsplit : stmt.params = ps1 ++ p :: ps2)
    (hok : ∀ r ∈ ps1, ∃ v, env.extract_req_param r request = .ok v)
    (hfail : env.extract_req_param p request = .error e) :
    bind_parameters env stmt request = .error e := by
  unfold bind_parameters
  rw [hsplit]
  have hloop : ∀ l1 : List StmtParam,
      (∀ r ∈ l1, ∃ v, env.extract_req_param r request = .ok v) →
      bind_loop env request (l1 ++ p :: ps2) = .error e := by
    intro l1 h
    induction l1 with
    | nil => simp [bind_loop, hfail]
    | cons a l ih =>
      obtain ⟨v, hv⟩ := h a (List.mem_cons_self a l)
      rw [List.cons_append]
      simp only [bind_loop, hv, ih (fun r hr => h r (List.mem_cons_of_mem a hr))]
  rw [hloop ps1 hok]

/-- Witness for the amended binding-error claim: the second parameter of a
two-parameter statement fails and its cause is returned unchanged. -/
theorem binding_error_is_first_failing_cause_witness :
    ((⟨"SELECT $1, $2", [StmtParam.Get "ok", StmtParam.Other "bad"]⟩ : StmtWithParams).params
        = [StmtParam.Get "ok"] ++ StmtParam.Other "bad" :: [])
    ∧ (envC6.extract_req_param (StmtParam.Other "bad") reqC6 = .error ["boom"])
    ∧ bind_parameters envC6 ⟨"SELECT $1, $2", [StmtParam.Get "ok", StmtParam.Other "bad"]⟩ reqC6
        = .error ["boom"] :=
  ⟨rfl, rfl,
   binding_error_is_first_failing_cause envC6 reqC6
     ⟨"SELECT $1, $2", [StmtParam.Get "ok", StmtParam.Other "bad"]⟩
     [StmtParam.Get "ok"] [] (StmtParam.Other "bad") ["boom"]
     rfl
     (fun r hr => by rw [List.mem_singleton] at hr; subst hr; exact ⟨some "v", rfl⟩)
     rfl⟩
